import Mathlib

/-!
Task worker: routing, theme setting and task CRUD.

A shallow embedding of `src/index.js`: the worker entry point `fetch`, the API
router `handleApi` and the four D1 helpers `createTask`, `listTasks`,
`updateTask`, `deleteTask`.

Modelling conventions.

* The bindings `env.KVP` and `env.DB` are mutable stores; they are fields of `Env`
  and every function that awaits a store call returns the successor `Env`.
  `Env.log` is a ghost field recording, in order, each call made on a binding.
* `crypto.randomUUID()` and `Date.now()` are read from a `Runtime` record.
* A thrown exception is `Except.error`.
* `JSON.stringify v` is kept as the value `v` (`RespBody.json`).
* Request bodies are typed as in the interface: `theme`, `text` and `title` are
  strings, `completed` is an arbitrary scalar JavaScript value.
-/

namespace TaskApp

/-! ## JavaScript values and string primitives -/

/-- Scalar JavaScript values (what a JSON body can give for `completed`,
plus `undefined` for a missing field). -/
inductive JsVal where
  | undefined
  | null
  | bool (b : Bool)
  | num (n : Int)
  | str (s : String)
  deriving DecidableEq, Repr

/-- JavaScript truthiness, as used by `data.completed ? 1 : 0`. -/
def JsVal.truthy : JsVal → Bool
  | .undefined => false
  | .null => false
  | .bool b => b
  | .num n => n != 0
  | .str s => s != ""

/-- The expression `a || d` where `a` is a string or `null`/`undefined` (`none`) and `d`
a string: `d` when `a` is falsy (absent or the empty string), else `a`. -/
def strOr (a : Option String) (d : String) : String :=
  match a with
  | some s => if s = "" then d else s
  | none => d

/-- The method `s.startsWith(pre)`. -/
def startsWith (s pre : String) : Bool :=
  pre.data.isPrefixOf s.data

/-- First-occurrence replacement on character lists. -/
def replaceChars (pat rep : List Char) : List Char → List Char
  | [] => if pat.isPrefixOf [] then rep else []
  | c :: cs =>
    if pat.isPrefixOf (c :: cs) then rep ++ (c :: cs).drop pat.length
    else c :: replaceChars pat rep cs

/-- The method `s.replace(pat, rep)` with a string pattern: only the first occurrence is
replaced. -/
def replace (s pat rep : String) : String :=
  ⟨replaceChars pat.data rep.data s.data⟩

/-- Splitting a character list at every occurrence of `sep`. -/
def splitChars (sep : Char) : List Char → List (List Char)
  | [] => [[]]
  | c :: cs =>
    if c = sep then [] :: splitChars sep cs
    else (c :: (splitChars sep cs).headD []) :: (splitChars sep cs).tail

/-- The method `s.split(sep)` for a one-character separator. -/
def split (s : String) (sep : Char) : List String :=
  (splitChars sep s.data).map String.mk

/-! ## Data model -/

/-- A row of the `tasks` table: `(id, title, completed, created_at)`. -/
structure Row where
  id : String
  title : String
  completed : Int
  created_at : Int
  deriving DecidableEq, Repr

/-- The task object built by `createTask` and by the `map` of `listTasks`. -/
structure Task where
  id : String
  title : String
  completed : Bool
  created_at : Int
  deriving DecidableEq, Repr

/-- The object `{ id, title, completed }` returned by `updateTask`. -/
structure Updated where
  id : String
  title : String
  completed : JsVal
  deriving DecidableEq, Repr

/-- The fields of a parsed JSON request body that the handlers read. -/
structure Body where
  theme : String
  text : String
  title : String
  completed : JsVal
  deriving DecidableEq, Repr

/-- The argument of `JSON.stringify` in a response. -/
inductive Payload where
  | theme (theme : String)
  | success
  | summary (summary : String)
  | tasks (ts : List Task)
  | task (t : Task)
  | updated (u : Updated)
  deriving DecidableEq, Repr

/-- The first argument of `new Response(...)`. -/
inductive RespBody where
  | null
  | text (s : String)
  | json (p : Payload)
  deriving DecidableEq, Repr

/-- A response: the body and the `status` and `headers` of its init object
(`status` is 200 when the init gives none). -/
structure Response where
  body : RespBody
  status : Nat
  headers : List (String × String)
  deriving DecidableEq, Repr

/-- A request: method, the origin and pathname of its URL, and the result of
`request.json()` (`none` when parsing the body throws). -/
structure Request where
  method : String
  origin : String
  pathname : String
  json : Option Body
  deriving DecidableEq, Repr

/-- One call on a binding of `env`. -/
inductive Op where
  | kvGet (key : String)
  | kvPut (key value : String)
  | aiRun (model content : String)
  | dbInsert (id title : String) (completed : Int) (created_at : Int)
  | dbSelectAll
  | dbUpdate (title : String) (completed : Int) (id : String)
  | dbDelete (id : String)
  deriving DecidableEq, Repr

/-- The bindings of the worker. -/
structure Env where
  KVP : List (String × String)
  DB : List Row
  AI : String → String → String
  ASSETS : Option (Request → Response)
  log : List Op

/-- The two ambient sources read by `createTask`. -/
structure Runtime where
  uuid : String
  now : Int
  deriving DecidableEq, Repr

/-! ## Stores -/

/-- The call `KVP.get(key)`: the stored string, or `null` (`none`). -/
def kvGet (kv : List (String × String)) (key : String) : Option String :=
  kv.lookup key

/-- The call `KVP.put(key, value)`: unconditional overwrite. -/
def kvPut (kv : List (String × String)) (key value : String) : List (String × String) :=
  (key, value) :: kv.filter (fun p => p.1 != key)

/-- Modelled from the spec: the schema of the `tasks` table is not in the
repository; the spec gives it a primary key on `id`, so
`INSERT INTO tasks (id, title, completed, created_at) VALUES (?, ?, ?, ?)`
fails when a row with that `id` exists and otherwise adds the row. -/
def dbInsert (db : List Row) (r : Row) : Option (List Row) :=
  if db.any (fun x => x.id == r.id) then none else some (db ++ [r])

/-- The statement `SELECT * FROM tasks ORDER BY created_at DESC`. -/
def dbSelectAll (db : List Row) : List Row :=
  db.insertionSort (fun a b => b.created_at ≤ a.created_at)

/-- The statement `UPDATE tasks SET title = ?, completed = ? WHERE id = ?`. -/
def dbUpdate (db : List Row) (title : String) (completed : Int) (id : String) : List Row :=
  db.map (fun r => if r.id = id then { r with title := title, completed := completed } else r)

/-- The statement `DELETE FROM tasks WHERE id = ?`. -/
def dbDelete (db : List Row) (id : String) : List Row :=
  db.filter (fun r => r.id != id)

/-! ## The worker -/

/-- The function `corsHeaders()`. -/
def corsHeaders : List (String × String) :=
  [("Access-Control-Allow-Origin", "*"),
   ("Access-Control-Allow-Methods", "GET, POST, PUT, DELETE, OPTIONS"),
   ("Access-Control-Allow-Headers", "Content-Type")]

/-- The function `createTask(env, data)`; the insert can fail, and the failure propagates. -/
def createTask (rt : Runtime) (env : Env) (data : Body) : Except String (Task × Env) :=
  let id := rt.uuid
  let now := rt.now
  match dbInsert env.DB { id := id, title := data.title, completed := 0, created_at := now } with
  | none => .error "D1_ERROR"
  | some db =>
    .ok ({ id := id, title := data.title, completed := false, created_at := now },
         { env with DB := db, log := env.log ++ [Op.dbInsert id data.title 0 now] })

/-- The function `listTasks(env)`. -/
def listTasks (env : Env) : List Task × Env :=
  let results := dbSelectAll env.DB
  (results.map (fun (row : Row) =>
      ({ id := row.id, title := row.title, completed := decide (row.completed ≠ (0 : Int)),
         created_at := row.created_at } : Task)),
   { env with log := env.log ++ [Op.dbSelectAll] })

/-- The function `updateTask(env, id, data)`. -/
def updateTask (env : Env) (id : String) (data : Body) : Updated × Env :=
  let c : Int := if data.completed.truthy then 1 else 0
  ({ id := id, title := data.title, completed := data.completed },
   { env with DB := dbUpdate env.DB data.title c id,
              log := env.log ++ [Op.dbUpdate data.title c id] })

/-- The function `deleteTask(env, id)`. -/
def deleteTask (env : Env) (id : String) : Env :=
  { env with DB := dbDelete env.DB id, log := env.log ++ [Op.dbDelete id] }

/-- The function `handleApi(request, env)`. In the PUT and DELETE routes `path.split("/")[2]`
is `undefined` when the split has fewer than three elements; binding `undefined` is an
error (the guard on the path makes this case unreachable). -/
def handleApi (rt : Runtime) (env : Env) (request : Request) : Except String (Response × Env) :=
  let path := replace request.pathname "/api" ""
  let method := request.method
  let headers := corsHeaders
  if method = "OPTIONS" then
    .ok ({ body := .null, status := 204, headers := headers }, env)
  else if method = "GET" ∧ path = "/theme" then
    let theme := strOr (kvGet env.KVP "theme") "light"
    .ok ({ body := .json (.theme theme), status := 200, headers := headers },
         { env with log := env.log ++ [Op.kvGet "theme"] })
  else if method = "POST" ∧ path = "/theme" then
    match request.json with
    | none => .error "SyntaxError"
    | some body =>
      .ok ({ body := .json .success, status := 200, headers := headers },
           { env with KVP := kvPut env.KVP "theme" body.theme,
                      log := env.log ++ [Op.kvPut "theme" body.theme] })
  else if method = "POST" ∧ path = "/summarize" then
    match request.json with
    | none => .error "SyntaxError"
    | some body =>
      let text := strOr (some body.text) ""
      let content := "Summarize this task in under 10 words: " ++ text
      let aiRes := env.AI "@cf/meta/llama-3-8b-instruct" content
      .ok ({ body := .json (.summary aiRes), status := 200, headers := headers },
           { env with log := env.log ++ [Op.aiRun "@cf/meta/llama-3-8b-instruct" content] })
  else if method = "GET" ∧ path = "/tasks" then
    let (tasks, env1) := listTasks env
    .ok ({ body := .json (.tasks tasks), status := 200, headers := headers }, env1)
  else if method = "POST" ∧ path = "/tasks" then
    match request.json with
    | none => .error "SyntaxError"
    | some body =>
      match createTask rt env body with
      | .error e => .error e
      | .ok (task, env1) =>
        .ok ({ body := .json (.task task), status := 200, headers := headers }, env1)
  else if method = "PUT" ∧ startsWith path "/tasks/" then
    match (split path '/')[2]? with
    | none => .error "D1_TYPE_ERROR"
    | some id =>
      match request.json with
      | none => .error "SyntaxError"
      | some body =>
        let (task, env1) := updateTask env id body
        .ok ({ body := .json (.updated task), status := 200, headers := headers }, env1)
  else if method = "DELETE" ∧ startsWith path "/tasks/" then
    match (split path '/')[2]? with
    | none => .error "D1_TYPE_ERROR"
    | some id =>
      .ok ({ body := .json .success, status := 200, headers := headers }, deleteTask env id)
  else
    .ok ({ body := .text "Not Found", status := 404, headers := headers }, env)

/-- The worker entry point `fetch(request, env)`. -/
def fetch (rt : Runtime) (env : Env) (request : Request) : Except String (Response × Env) :=
  let path := request.pathname
  if startsWith path "/api/" then
    handleApi rt env request
  else
    match env.ASSETS with
    | some assets =>
      let asset := assets request
      if asset.status ≠ 404 then .ok (asset, env)
      else .ok (assets { request with pathname := "/index.html" }, env)
    | none => .ok ({ body := .text "Assets not configured", status := 500, headers := [] }, env)

/-- A run of `createTask` calls, one per element, each with its own id and clock
reading; it stops at the first failing insert. -/
def createAll (env : Env) : List (Runtime × Body) → Except String Env
  | [] => .ok env
  | (rt, data) :: rest =>
    match createTask rt env data with
    | .error e => .error e
    | .ok (_, env1) => createAll env1 rest

/-! ## Sample inputs -/

/-- Bindings with empty stores and no asset service. -/
def emptyEnv : Env :=
  { KVP := [], DB := [], AI := fun _ _ => "", ASSETS := none, log := [] }

/-- Bindings with a stored theme and two task rows. -/
def sampleEnv : Env :=
  { KVP := [("theme", "dark")],
    DB := [⟨"a", "first", 0, 10⟩, ⟨"b", "second", 1, 20⟩],
    AI := fun _ _ => "", ASSETS := none, log := [] }

/-! ## Path lemmas -/

theorem replace_api (p : String) : replace ("/api" ++ p) "/api" "" = p := by
  simp [replace, replaceChars]

theorem splitChars_ne_nil (sep : Char) (cs : List Char) : splitChars sep cs ≠ [] := by
  cases cs with
  | nil => simp [splitChars]
  | cons c cs => by_cases h : c = sep <;> simp [splitChars, h]

theorem splitChars_head (sep : Char) (cs : List Char) :
    (splitChars sep cs).headD [] = cs.takeWhile (fun c => c != sep) := by
  induction cs with
  | nil => simp [splitChars]
  | cons c cs ih =>
    by_cases h : c = sep
    · simp [splitChars, h]
    · simp [splitChars, h]
      simpa using ih

theorem splitChars_of_not_mem (sep : Char) (cs : List Char) (h : sep ∉ cs) :
    splitChars sep cs = [cs] := by
  induction cs with
  | nil => simp [splitChars]
  | cons c cs ih =>
    have hc : c ≠ sep := fun e => h (by simp [e])
    have hcs : sep ∉ cs := fun e => h (by simp [e])
    simp [splitChars, hc, ih hcs]

theorem split_tasks_second (rest : String) :
    (split ("/tasks/" ++ rest) '/')[2]? =
      some (String.mk (rest.data.takeWhile (fun c => c != '/'))) := by
  have h := splitChars_head '/' rest.data
  have hne := splitChars_ne_nil '/' rest.data
  cases hs : splitChars '/' rest.data with
  | nil => exact absurd hs hne
  | cons w ws =>
    rw [hs] at h
    simp at h
    simp [split, splitChars, hs, h]

theorem startsWith_tasks (rest : String) : startsWith ("/tasks/" ++ rest) "/tasks/" = true := by
  simp [startsWith]

/-! ## Router -/

/-- C6: a request whose path starts with /api/ and whose method is OPTIONS is
answered, for every rest of the path and every content of the stores, with
status 204, a null body and the three cross-origin headers; the bindings are
returned as they were, the call log included, so no store is read or written. -/
theorem fetch_options_preflight (rt : Runtime) (env : Env) (request : Request)
    (hpath : startsWith request.pathname "/api/" = true)
    (hmethod : request.method = "OPTIONS") :
    fetch rt env request =
      .ok ({ body := .null, status := 204,
             headers := [("Access-Control-Allow-Origin", "*"),
                         ("Access-Control-Allow-Methods", "GET, POST, PUT, DELETE, OPTIONS"),
                         ("Access-Control-Allow-Headers", "Content-Type")] }, env) := by
  simp [fetch, hpath, handleApi, hmethod, corsHeaders]

theorem fetch_options_preflight_witness :
    fetch ⟨"u1", 7⟩ ⟨[("theme", "dark")], [⟨"a", "t", 1, 3⟩], fun _ _ => "", none, []⟩
        ⟨"OPTIONS", "https://h", "/api/tasks/42", none⟩ =
      .ok ({ body := .null, status := 204,
             headers := [("Access-Control-Allow-Origin", "*"),
                         ("Access-Control-Allow-Methods", "GET, POST, PUT, DELETE, OPTIONS"),
                         ("Access-Control-Allow-Headers", "Content-Type")] },
           ⟨[("theme", "dark")], [⟨"a", "t", 1, 3⟩], fun _ _ => "", none, []⟩) :=
  fetch_options_preflight _ _ _ (by decide) rfl

/-- C7: every response returned by handleApi, whichever branch produced it,
has as headers the fixed list: allow-origin "*", allow-methods
"GET, POST, PUT, DELETE, OPTIONS", allow-headers "Content-Type". -/
theorem handleApi_headers (rt : Runtime) (env env1 : Env) (request : Request)
    (resp : Response) (h : handleApi rt env request = .ok (resp, env1)) :
    resp.headers =
      [("Access-Control-Allow-Origin", "*"),
       ("Access-Control-Allow-Methods", "GET, POST, PUT, DELETE, OPTIONS"),
       ("Access-Control-Allow-Headers", "Content-Type")] := by
  unfold handleApi at h
  simp only [listTasks, updateTask] at h
  split_ifs at h
  all_goals first
    | (injection h with h; injection h with h _; subst h; rfl)
    | (split at h
       all_goals first
         | (injection h with h; injection h with h _; subst h; rfl)
         | (exact absurd h (by simp))
         | (split at h
            all_goals first
              | (injection h with h; injection h with h _; subst h; rfl)
              | (exact absurd h (by simp))))

theorem handleApi_headers_witness :
    (⟨.json (.theme "light"), 200, corsHeaders⟩ : Response).headers =
      [("Access-Control-Allow-Origin", "*"),
       ("Access-Control-Allow-Methods", "GET, POST, PUT, DELETE, OPTIONS"),
       ("Access-Control-Allow-Headers", "Content-Type")] :=
  handleApi_headers ⟨"u1", 7⟩ ⟨[], [], fun _ _ => "", none, []⟩
    ⟨[], [], fun _ _ => "", none, [Op.kvGet "theme"]⟩
    ⟨"GET", "https://h", "/api/theme", none⟩ _ rfl

/-- C8: for a request under /api/ whose method is not OPTIONS and whose method
and path (after the /api part is removed) match none of the seven routes,
handleApi, and so the worker, answers 404 "Not Found" with the fixed headers
and returns the bindings as they were, the call log included. -/
theorem handleApi_not_found (rt : Runtime) (env : Env) (request : Request) (p : String)
    (hpath : request.pathname = "/api" ++ p)
    (hslash : startsWith p "/" = true)
    (hopt : request.method ≠ "OPTIONS")
    (h1 : ¬ (request.method = "GET" ∧ p = "/theme"))
    (h2 : ¬ (request.method = "POST" ∧ p = "/theme"))
    (h3 : ¬ (request.method = "POST" ∧ p = "/summarize"))
    (h4 : ¬ (request.method = "GET" ∧ p = "/tasks"))
    (h5 : ¬ (request.method = "POST" ∧ p = "/tasks"))
    (h6 : ¬ (request.method = "PUT" ∧ startsWith p "/tasks/" = true))
    (h7 : ¬ (request.method = "DELETE" ∧ startsWith p "/tasks/" = true)) :
    handleApi rt env request =
        .ok ({ body := .text "Not Found", status := 404, headers := corsHeaders }, env) ∧
      fetch rt env request =
        .ok ({ body := .text "Not Found", status := 404, headers := corsHeaders }, env) := by
  have hapi : startsWith request.pathname "/api/" = true := by
    rw [hpath]
    simp only [startsWith] at hslash ⊢
    cases hp : p.data with
    | nil => simp [hp] at hslash
    | cons c cs =>
      simp [hp] at hslash
      simp [hp]
      exact hslash
  have hmain : handleApi rt env request =
      .ok ({ body := .text "Not Found", status := 404, headers := corsHeaders }, env) := by
    unfold handleApi
    simp only [hpath, replace_api]
    rw [if_neg hopt, if_neg h1, if_neg h2, if_neg h3, if_neg h4, if_neg h5, if_neg h6, if_neg h7]
  refine ⟨hmain, ?_⟩
  unfold fetch
  simp only [hapi, if_true]
  exact hmain

theorem handleApi_not_found_witness :
    (handleApi ⟨"u1", 7⟩ ⟨[], [⟨"123", "t", 0, 3⟩], fun _ _ => "", none, []⟩
        ⟨"GET", "https://h", "/api/tasks/123", none⟩ =
        .ok ({ body := .text "Not Found", status := 404, headers := corsHeaders },
          ⟨[], [⟨"123", "t", 0, 3⟩], fun _ _ => "", none, []⟩) ∧
      fetch ⟨"u1", 7⟩ ⟨[], [⟨"123", "t", 0, 3⟩], fun _ _ => "", none, []⟩
        ⟨"GET", "https://h", "/api/tasks/123", none⟩ =
        .ok ({ body := .text "Not Found", status := 404, headers := corsHeaders },
          ⟨[], [⟨"123", "t", 0, 3⟩], fun _ _ => "", none, []⟩)) ∧
    (handleApi ⟨"u1", 7⟩ ⟨[], [], fun _ _ => "", none, []⟩
        ⟨"PUT", "https://h", "/api/tasks", some ⟨"", "", "x", .bool true⟩⟩ =
        .ok ({ body := .text "Not Found", status := 404, headers := corsHeaders },
          ⟨[], [], fun _ _ => "", none, []⟩) ∧
      fetch ⟨"u1", 7⟩ ⟨[], [], fun _ _ => "", none, []⟩
        ⟨"PUT", "https://h", "/api/tasks", some ⟨"", "", "x", .bool true⟩⟩ =
        .ok ({ body := .text "Not Found", status := 404, headers := corsHeaders },
          ⟨[], [], fun _ _ => "", none, []⟩)) ∧
    (handleApi ⟨"u1", 7⟩ ⟨[("theme", "dark")], [], fun _ _ => "", none, []⟩
        ⟨"GET", "https://h", "/api/theme/", none⟩ =
        .ok ({ body := .text "Not Found", status := 404, headers := corsHeaders },
          ⟨[("theme", "dark")], [], fun _ _ => "", none, []⟩) ∧
      fetch ⟨"u1", 7⟩ ⟨[("theme", "dark")], [], fun _ _ => "", none, []⟩
        ⟨"GET", "https://h", "/api/theme/", none⟩ =
        .ok ({ body := .text "Not Found", status := 404, headers := corsHeaders },
          ⟨[("theme", "dark")], [], fun _ _ => "", none, []⟩)) :=
  ⟨handleApi_not_found _ _ _ "/tasks/123" rfl (by decide) (by decide) (by decide) (by decide)
      (by decide) (by decide) (by decide) (by decide) (by decide),
   handleApi_not_found _ _ _ "/tasks" rfl (by decide) (by decide) (by decide) (by decide)
      (by decide) (by decide) (by decide) (by decide) (by decide),
   handleApi_not_found _ _ _ "/theme/" rfl (by decide) (by decide) (by decide) (by decide)
      (by decide) (by decide) (by decide) (by decide) (by decide)⟩

/-! ## Task routes -/

theorem api_tasks_path (rest : String) :
    replace ("/api/tasks/" ++ rest) "/api" "" = "/tasks/" ++ rest := by
  have h : ("/api/tasks/" : String) = "/api" ++ "/tasks/" := by decide
  rw [h, String.append_assoc, replace_api]

theorem takeWhile_of_not_mem (cs : List Char) (h : '/' ∉ cs) :
    cs.takeWhile (fun c => c != '/') = cs := by
  rw [List.takeWhile_eq_self_iff]
  intro c hc
  have : c ≠ '/' := fun e => h (e ▸ hc)
  simpa using this

theorem handleApi_delete (rt : Runtime) (env : Env) (request : Request) (rest : String)
    (hm : request.method = "DELETE") (hp : request.pathname = "/api/tasks/" ++ rest) :
    handleApi rt env request =
      .ok ({ body := .json .success, status := 200, headers := corsHeaders },
           deleteTask env (String.mk (rest.data.takeWhile (fun c => c != '/')))) := by
  unfold handleApi
  simp only [hp, api_tasks_path, hm, split_tasks_second, startsWith_tasks]
  simp

theorem handleApi_put (rt : Runtime) (env : Env) (request : Request) (rest : String)
    (body : Body)
    (hm : request.method = "PUT") (hp : request.pathname = "/api/tasks/" ++ rest)
    (hb : request.json = some body) :
    handleApi rt env request =
      .ok ({ body := .json (.updated
                (updateTask env (String.mk (rest.data.takeWhile (fun c => c != '/'))) body).1),
             status := 200, headers := corsHeaders },
           (updateTask env (String.mk (rest.data.takeWhile (fun c => c != '/'))) body).2) := by
  unfold handleApi
  simp only [hp, api_tasks_path, hm, hb, split_tasks_second, startsWith_tasks]
  simp

theorem split_last_of_not_mem (rest : String) (h : '/' ∉ rest.data) :
    (split ("/api/tasks/" ++ rest) '/').getLast? = some rest := by
  simp [split, splitChars, splitChars_of_not_mem '/' rest.data h]

/-- C3: for every id, title, completed value and bindings, updateTask returns
the record made of the id and the supplied title and completed value; the
result is the same for any two table states; with title "x" and completed true
it is the record with that id, "x" and true. -/
theorem updateTask_returns_supplied (env env2 : Env) (id : String) (data : Body) :
    (updateTask env id data).1 = { id := id, title := data.title, completed := data.completed } ∧
    (updateTask env2 id data).1 = (updateTask env id data).1 ∧
    (updateTask env id { data with title := "x", completed := .bool true }).1 =
      { id := id, title := "x", completed := .bool true } :=
  ⟨rfl, rfl, rfl⟩

/-- C9: updateTask keeps the number and the positions of the rows; a row with
the given id keeps its id and created_at and gets the supplied title and
completed 1 (truthy value) or 0; a row with another id is unchanged; when no
row has the id the table is unchanged; the key-value store is unchanged. -/
theorem updateTask_frame (env : Env) (id : String) (data : Body) :
    (updateTask env id data).2.DB.length = env.DB.length ∧
    (∀ (i : Nat) (r : Row), env.DB[i]? = some r → r.id = id →
      (updateTask env id data).2.DB[i]? =
        some { id := r.id, title := data.title,
               completed := if data.completed.truthy = true then 1 else 0,
               created_at := r.created_at }) ∧
    (∀ (i : Nat) (r : Row), env.DB[i]? = some r → r.id ≠ id →
      (updateTask env id data).2.DB[i]? = some r) ∧
    ((∀ r ∈ env.DB, r.id ≠ id) → (updateTask env id data).2.DB = env.DB) ∧
    (updateTask env id data).2.KVP = env.KVP := by
  refine ⟨by simp [updateTask, dbUpdate], ?_, ?_, ?_, rfl⟩
  · intro i r hi hid
    simp [updateTask, dbUpdate, List.getElem?_map, hi, hid]
  · intro i r hi hid
    simp [updateTask, dbUpdate, List.getElem?_map, hi, hid]
  · intro h
    simp only [updateTask, dbUpdate]
    conv_rhs => rw [← List.map_id env.DB]
    apply List.map_congr_left
    intro r hr
    simp [h r hr]

theorem updateTask_frame_witness :
    (updateTask sampleEnv "b" ⟨"", "", "renamed", .str "yes"⟩).2.DB[1]? =
        some { id := "b", title := "renamed", completed := 1, created_at := 20 } ∧
    (updateTask sampleEnv "b" ⟨"", "", "renamed", .str "yes"⟩).2.DB[0]? =
        some ⟨"a", "first", 0, 10⟩ ∧
    (updateTask sampleEnv "zz" ⟨"", "", "renamed", .str "yes"⟩).2.DB = sampleEnv.DB :=
  ⟨(updateTask_frame sampleEnv "b" ⟨"", "", "renamed", .str "yes"⟩).2.1 1 ⟨"b", "second", 1, 20⟩
      rfl rfl,
   (updateTask_frame sampleEnv "b" ⟨"", "", "renamed", .str "yes"⟩).2.2.1 0 ⟨"a", "first", 0, 10⟩
      rfl (by decide),
   (updateTask_frame sampleEnv "zz" ⟨"", "", "renamed", .str "yes"⟩).2.2.2.1 (by decide)⟩

/-- C4: deleting an id that has no row leaves the table unchanged; deleting
an id twice gives the same table as deleting it once; and a DELETE request for
/api/tasks/ followed by the id is answered 200 with the success object,
whether or not a row has that id. -/
theorem deleteTask_lenient_idempotent (env : Env) (id : String) :
    ((∀ r ∈ env.DB, r.id ≠ id) → (deleteTask env id).DB = env.DB) ∧
    (deleteTask (deleteTask env id) id).DB = (deleteTask env id).DB ∧
    (∀ (rt : Runtime) (request : Request), request.method = "DELETE" →
      '/' ∉ id.data → request.pathname = "/api/tasks/" ++ id →
      handleApi rt env request =
        .ok ({ body := .json .success, status := 200, headers := corsHeaders },
             deleteTask env id)) := by
  refine ⟨?_, ?_, ?_⟩
  · intro h
    simp only [deleteTask, dbDelete]
    rw [List.filter_eq_self]
    intro r hr
    simpa using h r hr
  · simp [deleteTask, dbDelete]
  · intro rt request hm hid hp
    rw [handleApi_delete rt env request id hm hp, takeWhile_of_not_mem id.data hid]

theorem deleteTask_lenient_idempotent_witness :
    (deleteTask sampleEnv "zz").DB = sampleEnv.DB ∧
    handleApi ⟨"u1", 7⟩ sampleEnv ⟨"DELETE", "https://h", "/api/tasks/zz", none⟩ =
      .ok ({ body := .json .success, status := 200, headers := corsHeaders },
           deleteTask sampleEnv "zz") :=
  ⟨(deleteTask_lenient_idempotent sampleEnv "zz").1 (by decide),
   (deleteTask_lenient_idempotent sampleEnv "zz").2.2 ⟨"u1", 7⟩
      ⟨"DELETE", "https://h", "/api/tasks/zz", none⟩ rfl (by decide) rfl⟩

/-- C10, as stated, fails: for DELETE /api/tasks/a/b the id given to deleteTask
is "a" (the row "a" is removed, the call logged is a delete of "a") while the
last segment of the path is "b". -/
theorem task_id_not_last_segment :
    handleApi ⟨"u1", 7⟩ sampleEnv ⟨"DELETE", "https://h", "/api/tasks/a/b", none⟩ =
        .ok ({ body := .json .success, status := 200, headers := corsHeaders },
             deleteTask sampleEnv "a") ∧
    (deleteTask sampleEnv "a").log = [Op.dbDelete "a"] ∧
    (deleteTask sampleEnv "a").DB = [⟨"b", "second", 1, 20⟩] ∧
    (split "/api/tasks/a/b" '/').getLast? = some "b" ∧
    (split "/api/tasks/a/b" '/').getLast? ≠ some "a" :=
  ⟨rfl, rfl, rfl, by decide, by decide⟩

/-- C10, amended: for a PUT or DELETE request whose path is /api/tasks/
followed by rest, the id given to updateTask or deleteTask is element 2 of the
split of the path without /api, that is the part of rest before its first
slash; when rest has no slash this is rest itself, the last segment of the
path. -/
theorem task_id_is_segment_after_tasks (rt : Runtime) (env : Env) (request : Request)
    (rest : String) (hp : request.pathname = "/api/tasks/" ++ rest) :
    (split (replace request.pathname "/api" "") '/')[2]? =
        some (String.mk (rest.data.takeWhile (fun c => c != '/'))) ∧
    (request.method = "DELETE" →
      handleApi rt env request =
        .ok ({ body := .json .success, status := 200, headers := corsHeaders },
             deleteTask env (String.mk (rest.data.takeWhile (fun c => c != '/'))))) ∧
    (request.method = "PUT" → ∀ body : Body, request.json = some body →
      handleApi rt env request =
        .ok ({ body := .json (.updated
                  (updateTask env (String.mk (rest.data.takeWhile (fun c => c != '/'))) body).1),
               status := 200, headers := corsHeaders },
             (updateTask env (String.mk (rest.data.takeWhile (fun c => c != '/'))) body).2)) ∧
    ('/' ∉ rest.data →
      String.mk (rest.data.takeWhile (fun c => c != '/')) = rest ∧
      (split request.pathname '/').getLast? = some rest) := by
  refine ⟨?_, ?_, ?_, ?_⟩
  · rw [hp, api_tasks_path, split_tasks_second]
  · intro hm
    exact handleApi_delete rt env request rest hm hp
  · intro hm body hb
    exact handleApi_put rt env request rest body hm hp hb
  · intro h
    refine ⟨?_, ?_⟩
    · rw [takeWhile_of_not_mem rest.data h]
    · rw [hp, split_last_of_not_mem rest h]

theorem task_id_is_segment_after_tasks_witness :
    handleApi ⟨"u1", 7⟩ sampleEnv
        ⟨"PUT", "https://h", "/api/tasks/b", some ⟨"", "", "x", .bool true⟩⟩ =
      .ok ({ body := .json (.updated
                (updateTask sampleEnv (String.mk ("b".data.takeWhile (fun c => c != '/')))
                  ⟨"", "", "x", .bool true⟩).1),
             status := 200, headers := corsHeaders },
           (updateTask sampleEnv (String.mk ("b".data.takeWhile (fun c => c != '/')))
              ⟨"", "", "x", .bool true⟩).2) ∧
    (String.mk ("b".data.takeWhile (fun c => c != '/')) = "b" ∧
      (split "/api/tasks/b" '/').getLast? = some "b") ∧
    handleApi ⟨"u1", 7⟩ sampleEnv ⟨"DELETE", "https://h", "/api/tasks/a/b", none⟩ =
      .ok ({ body := .json .success, status := 200, headers := corsHeaders },
           deleteTask sampleEnv (String.mk ("a/b".data.takeWhile (fun c => c != '/')))) :=
  ⟨(task_id_is_segment_after_tasks ⟨"u1", 7⟩ sampleEnv
      ⟨"PUT", "https://h", "/api/tasks/b", some ⟨"", "", "x", .bool true⟩⟩ "b" rfl).2.2.1
      rfl _ rfl,
   (task_id_is_segment_after_tasks ⟨"u1", 7⟩ sampleEnv
      ⟨"PUT", "https://h", "/api/tasks/b", some ⟨"", "", "x", .bool true⟩⟩ "b" rfl).2.2.2
      (by decide),
   (task_id_is_segment_after_tasks ⟨"u1", 7⟩ sampleEnv
      ⟨"DELETE", "https://h", "/api/tasks/a/b", none⟩ "a/b" rfl).2.1 rfl⟩

/-! ## Theme -/

/-- C5, as stated, fails for the empty theme string: POST /api/theme with
theme "" succeeds and stores "", yet the next GET /api/theme answers with
theme "light", not with the stored "". -/
theorem theme_empty_not_returned :
    handleApi ⟨"u1", 7⟩ emptyEnv ⟨"POST", "https://h", "/api/theme", some ⟨"", "", "", .null⟩⟩ =
        .ok ({ body := .json .success, status := 200, headers := corsHeaders },
             { emptyEnv with KVP := [("theme", "")], log := [Op.kvPut "theme" ""] }) ∧
    kvGet [("theme", "")] "theme" = some "" ∧
    handleApi ⟨"u1", 7⟩ { emptyEnv with KVP := [("theme", "")], log := [Op.kvPut "theme" ""] }
        ⟨"GET", "https://h", "/api/theme", none⟩ =
        .ok ({ body := .json (.theme "light"), status := 200, headers := corsHeaders },
             { emptyEnv with KVP := [("theme", "")],
                             log := [Op.kvPut "theme" "", Op.kvGet "theme"] }) ∧
    Payload.theme "light" ≠ Payload.theme "" :=
  ⟨rfl, rfl, rfl, by decide⟩

theorem kvGet_kvPut (kv : List (String × String)) (key value : String) :
    kvGet (kvPut kv key value) key = some value := by
  simp [kvGet, kvPut, List.lookup]

theorem handleApi_get_theme (rt : Runtime) (env : Env) (request : Request)
    (hm : request.method = "GET") (hp : request.pathname = "/api/theme") :
    handleApi rt env request =
      .ok ({ body := .json (.theme (strOr (kvGet env.KVP "theme") "light")), status := 200,
             headers := corsHeaders },
           { env with log := env.log ++ [Op.kvGet "theme"] }) := by
  have h : replace "/api/theme" "/api" "" = "/theme" := by decide
  unfold handleApi
  simp [hp, hm, h]

theorem handleApi_post_theme (rt : Runtime) (env : Env) (request : Request) (body : Body)
    (hm : request.method = "POST") (hp : request.pathname = "/api/theme")
    (hb : request.json = some body) :
    handleApi rt env request =
      .ok ({ body := .json .success, status := 200, headers := corsHeaders },
           { env with KVP := kvPut env.KVP "theme" body.theme,
                      log := env.log ++ [Op.kvPut "theme" body.theme] }) := by
  have h : replace "/api/theme" "/api" "" = "/theme" := by decide
  unfold handleApi
  simp [hp, hm, h, hb]

/-- C5, amended: GET /api/theme answers "light" when nothing is stored or the
stored value is the empty string, and the stored value when it is non-empty;
so for every non-empty theme string, after POST /api/theme with that theme
(always accepted, overwriting), the next GET /api/theme answers that theme. -/
theorem theme_get_put (rt rt2 : Runtime) (env : Env) (post get : Request) (body : Body)
    (hpm : post.method = "POST") (hpp : post.pathname = "/api/theme")
    (hpb : post.json = some body)
    (hgm : get.method = "GET") (hgp : get.pathname = "/api/theme") :
    (kvGet env.KVP "theme" = none →
      handleApi rt env get =
        .ok ({ body := .json (.theme "light"), status := 200, headers := corsHeaders },
             { env with log := env.log ++ [Op.kvGet "theme"] })) ∧
    (kvGet env.KVP "theme" = some "" →
      handleApi rt env get =
        .ok ({ body := .json (.theme "light"), status := 200, headers := corsHeaders },
             { env with log := env.log ++ [Op.kvGet "theme"] })) ∧
    (∀ v : String, kvGet env.KVP "theme" = some v → v ≠ "" →
      handleApi rt env get =
        .ok ({ body := .json (.theme v), status := 200, headers := corsHeaders },
             { env with log := env.log ++ [Op.kvGet "theme"] })) ∧
    (∃ env1 : Env,
      handleApi rt env post =
        .ok ({ body := .json .success, status := 200, headers := corsHeaders }, env1) ∧
      kvGet env1.KVP "theme" = some body.theme ∧
      (body.theme ≠ "" →
        handleApi rt2 env1 get =
          .ok ({ body := .json (.theme body.theme), status := 200, headers := corsHeaders },
               { env1 with log := env1.log ++ [Op.kvGet "theme"] }))) := by
  refine ⟨?_, ?_, ?_, ?_⟩
  · intro h
    rw [handleApi_get_theme rt env get hgm hgp, h]
    rfl
  · intro h
    rw [handleApi_get_theme rt env get hgm hgp, h]
    rfl
  · intro v h hv
    rw [handleApi_get_theme rt env get hgm hgp, h]
    simp [strOr, hv]
  · refine ⟨_, handleApi_post_theme rt env post body hpm hpp hpb, kvGet_kvPut _ _ _, ?_⟩
    intro hv
    rw [handleApi_get_theme rt2 _ get hgm hgp]
    simp only [kvGet_kvPut]
    simp [strOr, hv]

theorem theme_get_put_witness :
    handleApi ⟨"u1", 7⟩ emptyEnv ⟨"GET", "https://h", "/api/theme", none⟩ =
        .ok ({ body := .json (.theme "light"), status := 200, headers := corsHeaders },
             { emptyEnv with log := emptyEnv.log ++ [Op.kvGet "theme"] }) ∧
    handleApi ⟨"u1", 7⟩ sampleEnv ⟨"GET", "https://h", "/api/theme", none⟩ =
        .ok ({ body := .json (.theme "dark"), status := 200, headers := corsHeaders },
             { sampleEnv with log := sampleEnv.log ++ [Op.kvGet "theme"] }) ∧
    (∃ env1 : Env,
      handleApi ⟨"u1", 7⟩ emptyEnv
          ⟨"POST", "https://h", "/api/theme", some ⟨"dark", "", "", .null⟩⟩ =
        .ok ({ body := .json .success, status := 200, headers := corsHeaders }, env1) ∧
      handleApi ⟨"u2", 8⟩ env1 ⟨"GET", "https://h", "/api/theme", none⟩ =
        .ok ({ body := .json (.theme "dark"), status := 200, headers := corsHeaders },
             { env1 with log := env1.log ++ [Op.kvGet "theme"] })) :=
  ⟨(theme_get_put ⟨"u1", 7⟩ ⟨"u2", 8⟩ emptyEnv
      ⟨"POST", "https://h", "/api/theme", some ⟨"dark", "", "", .null⟩⟩
      ⟨"GET", "https://h", "/api/theme", none⟩ ⟨"dark", "", "", .null⟩ rfl rfl rfl rfl rfl).1 rfl,
   (theme_get_put ⟨"u1", 7⟩ ⟨"u2", 8⟩ sampleEnv
      ⟨"POST", "https://h", "/api/theme", some ⟨"dark", "", "", .null⟩⟩
      ⟨"GET", "https://h", "/api/theme", none⟩ ⟨"dark", "", "", .null⟩ rfl rfl rfl rfl
      rfl).2.2.1 "dark" rfl (by decide),
   match (theme_get_put ⟨"u1", 7⟩ ⟨"u2", 8⟩ emptyEnv
      ⟨"POST", "https://h", "/api/theme", some ⟨"dark", "", "", .null⟩⟩
      ⟨"GET", "https://h", "/api/theme", none⟩ ⟨"dark", "", "", .null⟩ rfl rfl rfl rfl
      rfl).2.2.2 with
   | ⟨env1, h1, _, h3⟩ => ⟨env1, h1, h3 (by decide)⟩⟩

/-! ## Create and list -/

theorem createTask_ok (rt : Runtime) (env env1 : Env) (data : Body) (task : Task)
    (h : createTask rt env data = .ok (task, env1)) :
    task = { id := rt.uuid, title := data.title, completed := false, created_at := rt.now } ∧
    env1.DB = env.DB ++ [{ id := rt.uuid, title := data.title, completed := 0,
                           created_at := rt.now }] := by
  unfold createTask dbInsert at h
  by_cases hany : (env.DB.any fun x => x.id == rt.uuid) = true
  · simp [hany] at h
  · simp only [hany, if_false, Except.ok.injEq, Prod.mk.injEq] at h
    cases h
    exact ⟨rfl, rfl⟩

theorem createAll_length (calls : List (Runtime × Body)) :
    ∀ env env1 : Env, createAll env calls = .ok env1 →
      env1.DB.length = env.DB.length + calls.length := by
  induction calls with
  | nil =>
    intro env env1 h
    simp only [createAll, Except.ok.injEq] at h
    subst h
    simp
  | cons c rest ih =>
    intro env env1 h
    obtain ⟨rt, data⟩ := c
    simp only [createAll] at h
    split at h
    · simp at h
    · rename_i t e1 hc
      have hlen := ih e1 env1 h
      have hdb := (createTask_ok rt env e1 data t hc).2
      rw [hlen, hdb]
      simp
      omega

theorem listTasks_sorted (env : Env) :
    List.Pairwise (fun a b : Task => b.created_at ≤ a.created_at) (listTasks env).1 := by
  haveI : IsTotal Row (fun a b : Row => b.created_at ≤ a.created_at) :=
    ⟨fun a b => le_total b.created_at a.created_at⟩
  haveI : IsTrans Row (fun a b : Row => b.created_at ≤ a.created_at) :=
    ⟨fun _ _ _ hab hbc => le_trans hbc hab⟩
  have hs := List.sorted_insertionSort (fun a b : Row => b.created_at ≤ a.created_at) env.DB
  simp only [listTasks, dbSelectAll, List.pairwise_map]
  exact hs

theorem listTasks_length (env : Env) : (listTasks env).1.length = env.DB.length := by
  simp [listTasks, dbSelectAll, List.length_insertionSort]

theorem mem_listTasks (env : Env) (r : Row) (h : r ∈ env.DB) :
    ({ id := r.id, title := r.title, completed := decide (r.completed ≠ 0),
       created_at := r.created_at } : Task) ∈ (listTasks env).1 := by
  simp only [listTasks, dbSelectAll, List.mem_map]
  exact ⟨r, ((List.perm_insertionSort _ env.DB).mem_iff).2 h, rfl⟩

/-- C1: when createTask succeeds, the listTasks call made next on the resulting
bindings returns a list containing a task with the id, title and created_at of
the record createTask returned (its title being the supplied one), with
completed false, and with created_at at least the clock value read by the
create call. -/
theorem createTask_then_listTasks (rt : Runtime) (env env1 : Env) (data : Body) (task : Task)
    (h : createTask rt env data = .ok (task, env1)) :
    task.title = data.title ∧
    ∃ t ∈ (listTasks env1).1,
      t.id = task.id ∧ t.title = task.title ∧ t.created_at = task.created_at ∧
      t.completed = false ∧ rt.now ≤ t.created_at := by
  obtain ⟨ht, hdb⟩ := createTask_ok rt env env1 data task h
  have hmem : ({ id := rt.uuid, title := data.title, completed := 0, created_at := rt.now } : Row)
      ∈ env1.DB := by
    rw [hdb]
    simp
  have hl := mem_listTasks env1 _ hmem
  subst ht
  exact ⟨rfl, _, hl, rfl, rfl, rfl, by simp, le_refl _⟩

theorem createTask_then_listTasks_witness :
    (⟨"u1", "buy milk", false, 30⟩ : Task).title = "buy milk" ∧
    ∃ t ∈ (listTasks
        { sampleEnv with
            DB := [⟨"a", "first", 0, 10⟩, ⟨"b", "second", 1, 20⟩, ⟨"u1", "buy milk", 0, 30⟩],
            log := [Op.dbInsert "u1" "buy milk" 0 30] }).1,
      t.id = "u1" ∧ t.title = "buy milk" ∧ t.created_at = 30 ∧
      t.completed = false ∧ (30 : Int) ≤ t.created_at :=
  createTask_then_listTasks ⟨"u1", 30⟩ sampleEnv _ ⟨"", "", "buy milk", .undefined⟩
    ⟨"u1", "buy milk", false, 30⟩ rfl

/-- C2: starting from an empty tasks table, when a run of N createTask calls
all succeed, listTasks on the resulting bindings returns exactly N items, and
each item has created_at greater than or equal to that of every later item. -/
theorem listTasks_after_creates (env env1 : Env) (calls : List (Runtime × Body))
    (hempty : env.DB = []) (h : createAll env calls = .ok env1) :
    (listTasks env1).1.length = calls.length ∧
    List.Pairwise (fun a b : Task => b.created_at ≤ a.created_at) (listTasks env1).1 := by
  refine ⟨?_, listTasks_sorted env1⟩
  rw [listTasks_length, createAll_length calls env env1 h, hempty]
  simp

theorem listTasks_after_creates_witness :
    (listTasks
        { emptyEnv with
            DB := [⟨"u1", "one", 0, 5⟩, ⟨"u2", "two", 0, 9⟩, ⟨"u3", "three", 0, 7⟩],
            log := [Op.dbInsert "u1" "one" 0 5, Op.dbInsert "u2" "two" 0 9,
                    Op.dbInsert "u3" "three" 0 7] }).1.length =
      [((⟨"u1", 5⟩ : Runtime), (⟨"", "", "one", .undefined⟩ : Body)),
       (⟨"u2", 9⟩, ⟨"", "", "two", .undefined⟩),
       (⟨"u3", 7⟩, ⟨"", "", "three", .undefined⟩)].length ∧
    List.Pairwise (fun a b : Task => b.created_at ≤ a.created_at)
      (listTasks
        { emptyEnv with
            DB := [⟨"u1", "one", 0, 5⟩, ⟨"u2", "two", 0, 9⟩, ⟨"u3", "three", 0, 7⟩],
            log := [Op.dbInsert "u1" "one" 0 5, Op.dbInsert "u2" "two" 0 9,
                    Op.dbInsert "u3" "three" 0 7] }).1 :=
  listTasks_after_creates emptyEnv _ _ rfl rfl

end TaskApp
